import Mathlib

/-!
Shallow embedding of `src/main.py` (a news fetch → filter → summarize agent).

Conventions used throughout:
* Python strings are Lean `String`s; a Python value that may be `None` is an
  `Option String` (`none` = Python `None`).
* Python truthiness of an optional string (`if not x`, `x or d`) is modelled
  by `pyTruthyStr` / `pyOr`.
* `str.split()` (no separator: split on whitespace runs, dropping empties) is
  modelled by `pySplit`; the `in` substring operator by `inStr`;
  `str.lower()` by `lowerStr` (ASCII case folding, as all keyword constants
  of the program are ASCII except for pre-lowercased accented literals).
* `int(word_count * 0.8)` truncates a nonnegative float product toward zero;
  it is modelled exactly as `word_count * 4 / 5` in `Nat` (the exact floor,
  which agrees with the float computation for all realistic word counts).
* Network effects are modelled by making each fetch function a pure function
  of the provider's response and returning the request it would send;
  `request = none` in a `FetchOutcome` means no network call was attempted.
-/

namespace Robotica

/-- One whitespace-splitting step of Python `str.split()` over the character
list of the string: `acc` holds the current in-progress word, reversed. -/
def pySplitAux : List Char → List Char → List (List Char)
  | [], acc => if acc.isEmpty then [] else [acc.reverse]
  | c :: cs, acc =>
    if c.isWhitespace then
      if acc.isEmpty then pySplitAux cs []
      else acc.reverse :: pySplitAux cs []
    else pySplitAux cs (c :: acc)

/-- Python `s.split()`: the whitespace-delimited words of `s`, empties dropped. -/
def pySplit (s : String) : List (List Char) := pySplitAux s.data []

/-- Python `len(text.split())`: the whitespace-delimited word count. -/
def wordCount (s : String) : Nat := (pySplit s).length

/-- Character-list test used to model Python `in`: does the haystack start
with the needle? -/
def startsWithChars : List Char → List Char → Bool
  | [], _ => true
  | _ :: _, [] => false
  | a :: as, b :: bs => a == b && startsWithChars as bs

/-- Character-list substring test: the needle occurs at some position. -/
def containsSubAux (needle : List Char) : List Char → Bool
  | [] => startsWithChars needle []
  | b :: bs => startsWithChars needle (b :: bs) || containsSubAux needle bs

/-- Python `needle in hay` on strings (substring containment). -/
def inStr (needle hay : String) : Bool := containsSubAux needle.data hay.data

/-- Python `s.lower()` (ASCII case folding). -/
def lowerStr (s : String) : String := String.mk (s.data.map Char.toLower)

/-- Python truthiness of a `str | None` value: `None` and `""` are falsy. -/
def pyTruthyStr : Option String → Bool
  | none => false
  | some s => !(s == "")

/-- Python `x or d` for `x : str | None`. -/
def pyOr (x : Option String) (d : String) : String :=
  if pyTruthyStr x then x.getD "" else d

/-- The arguments `dynamic_summarize` hands to the external summarization
pipeline (`summarizer(text, max_length=…, min_length=…, do_sample=False)`).
The inference capability itself is an external collaborator and is kept
opaque. -/
structure SummarizerCall where
  text : String
  max_length : Nat
  min_length : Nat
  do_sample : Bool
deriving DecidableEq, Repr

/-- Embedding of `dynamic_summarize` (src/main.py lines 25-44): the length
budgeting and the exact argument tuple passed to the inference call.
`int(word_count * 0.8)` is modelled as the exact floor `word_count * 4 / 5`. -/
def dynamic_summarize (text : String) (min_len max_len : Nat) : SummarizerCall :=
  let word_count := wordCount text
  let estimated0 := min max_len (word_count * 4 / 5)
  let estimated_max_len := if estimated0 < min_len then min_len + 5 else estimated0
  ⟨text, estimated_max_len, min_len, false⟩

/-- A normalized article record as built by the fetchers:
`{"title": …, "description": …, "url": …}`. The description is optional
because downstream code (`filter_by_article_type`, `run_agent`) defends
against a `None` description with truthiness checks. -/
structure Article where
  title : String
  description : Option String
  url : String
deriving DecidableEq, Repr

/-- Python `art["description"].lower() if art["description"] else ""`
(src/main.py line 159). -/
def descLower (d : Option String) : String :=
  if pyTruthyStr d then lowerStr (d.getD "") else ""

/-- The per-article keep decision of `filter_by_article_type` for one
category name: the `if/elif` chain of src/main.py lines 161-180, with an
implicit `false` for any unrecognized category (no `else` branch appends). -/
def keepByType (article_type : String) (art : Article) : Bool :=
  let title_lower := lowerStr art.title
  let desc_lower := descLower art.description
  if article_type == "divulgacion" then
    inStr "divulgación" title_lower || inStr "divulgación" desc_lower
  else if article_type == "paper" then
    inStr "paper" title_lower || inStr "study" title_lower || inStr "investigación" title_lower
      || inStr "paper" desc_lower || inStr "study" desc_lower || inStr "investigación" desc_lower
  else if article_type == "opinion" then
    inStr "opinión" title_lower || inStr "column" title_lower || inStr "op-ed" title_lower
      || inStr "opinión" desc_lower || inStr "column" desc_lower || inStr "op-ed" desc_lower
  else if article_type == "agency" then
    inStr "agencia" title_lower || inStr "reuters" title_lower || inStr "associated press" title_lower
      || inStr "ap " title_lower || inStr "afp" title_lower
      || inStr "agencia" desc_lower || inStr "reuters" desc_lower
      || inStr "ap " desc_lower || inStr "afp" desc_lower
  else false

/-- Embedding of `filter_by_article_type` (src/main.py lines 147-182):
`"all"`/`"any"` pass everything through unchanged; otherwise the loop appends,
in order, exactly the articles the `if/elif` chain accepts. -/
def filter_by_article_type (articles : List Article) (article_type : String) : List Article :=
  if article_type == "all" || article_type == "any" then articles
  else articles.filter (keepByType article_type)

/-- A raw provider article object from the JSON payload; `none` on a field
models the key being absent, so `art.get(k, "")` yields the default `""`. -/
structure RawArticle where
  title : Option String
  description : Option String
  url : Option String
deriving DecidableEq, Repr

/-- The normalization applied to each raw article by both fetchers
(src/main.py lines 78-84 and 120-125): missing fields default to `""`. -/
def normalizeArticle (a : RawArticle) : Article :=
  ⟨a.title.getD "", some (a.description.getD ""), a.url.getD ""⟩

/-- The provider's HTTP response, the only external input of a fetch. -/
structure ProviderResponse where
  status : Nat
  articles : List RawArticle
deriving DecidableEq, Repr

/-- The query parameters a fetcher sends to `https://newsapi.org/v2/everything`;
`domains = none` means the request carries no domain constraint. -/
structure NewsRequest where
  q : String
  language : String
  pageSize : Nat
  sortBy : String
  domains : Option String
deriving DecidableEq, Repr

/-- The reported (printed) condition of a fetch that yields no articles for a
reason other than an empty provider result. -/
inductive FetchCondition where
  | missingCredential
  | providerError
  | unknownSource
deriving DecidableEq, Repr

/-- What one invocation of a fetch function does: the request it sends
(`none` = no network call attempted), the normalized articles it returns, and
the condition it reports, if any. -/
structure FetchOutcome where
  request : Option NewsRequest
  articles : List Article
  condition : Option FetchCondition
deriving DecidableEq, Repr

/-- The built-in default domain string of `fetch_from_lista`
(src/main.py line 98). -/
def defaultDomainString : String :=
  "bbc.co.uk,washingtonpost.com,lemonde.fr,elpais.com,elmundo.es,europapress.es"

/-- Embedding of `fetch_from_newsapi` (src/main.py lines 51-84): with no
(truthy) `NEWSAPI_KEY` it returns `[]` reporting the missing credential and
sends nothing; otherwise it sends an unrestricted query and normalizes the
response (empty with a provider-error report on a non-200 status). -/
def fetch_from_newsapi (key : Option String) (topic language : String)
    (page_size : Nat) (resp : ProviderResponse) : FetchOutcome :=
  if pyTruthyStr key then
    let req : NewsRequest := ⟨topic, language, page_size, "publishedAt", none⟩
    if resp.status ≠ 200 then ⟨some req, [], some .providerError⟩
    else ⟨some req, resp.articles.map normalizeArticle, none⟩
  else ⟨none, [], some .missingCredential⟩

/-- Embedding of `fetch_from_lista` (src/main.py lines 87-126): like
`fetch_from_newsapi` but the request carries a `domains` constraint, the
default domain string substituting for a falsy (`None` or empty)
`domain_string`. -/
def fetch_from_lista (key : Option String) (topic language : String)
    (page_size : Nat) (domain_string : Option String)
    (resp : ProviderResponse) : FetchOutcome :=
  if pyTruthyStr key then
    let ds := if pyTruthyStr domain_string then domain_string.getD "" else defaultDomainString
    let req : NewsRequest := ⟨topic, language, page_size, "publishedAt", some ds⟩
    if resp.status ≠ 200 then ⟨some req, [], some .providerError⟩
    else ⟨some req, resp.articles.map normalizeArticle, none⟩
  else ⟨none, [], some .missingCredential⟩

/-- Embedding of `fetch_news` (src/main.py lines 129-140): dispatch on the
source name; an unknown source prints a message and returns `[]` without
calling either fetcher. -/
def fetch_news (key : Option String) (topic language : String) (page_size : Nat)
    (source : String) (domain_string : Option String)
    (resp : ProviderResponse) : FetchOutcome :=
  if source == "newsapi" then fetch_from_newsapi key topic language page_size resp
  else if source == "lista" then fetch_from_lista key topic language page_size domain_string resp
  else ⟨none, [], some .unknownSource⟩

/-- The text `run_agent` summarizes for one article:
`f"{title}. {desc}"` with `desc = art["description"] or ""`
(src/main.py lines 210-212). -/
def summaryInput (art : Article) : String :=
  art.title ++ ". " ++ pyOr art.description ""

/-- One numbered output block of `run_agent` (src/main.py lines 216-220). -/
def formatBlock (i : Nat) (art : Article) (summary : String) : String :=
  toString i ++ ". Título: " ++ art.title ++ "\n   URL: " ++ art.url
    ++ "\n   Resumen: " ++ summary ++ "\n"

/-- The summary-building loop of `run_agent`
(`for i, art in enumerate(filtered, 1): …`, src/main.py lines 208-220),
parameterized by the opaque inference capability `summarize`. -/
def buildSummaries (summarize : SummarizerCall → String) : Nat → List Article → List String
  | _, [] => []
  | i, art :: rest =>
    formatBlock i art (summarize (dynamic_summarize (summaryInput art) 100 450))
      :: buildSummaries summarize (i + 1) rest

/-- The observable result of one `run_agent` run: the printed report message,
if any, and the ordered formatted summary blocks. -/
structure RunResult where
  report : Option String
  blocks : List String
deriving DecidableEq, Repr

/-- The single empty-outcome message of `run_agent` (src/main.py line 204). -/
def noNewsAfterFilterMsg : String := "No se encontraron noticias tras el filtro."

/-- Embedding of the core of `run_agent` (src/main.py lines 200-224), from the
fetched article sequence on: filter, early return with the one empty-outcome
message when nothing survives, otherwise the numbered summary blocks in
order. `summarize` is the opaque inference capability. -/
def run_agent (summarize : SummarizerCall → String) (fetched : List Article)
    (article_type : String) : RunResult :=
  let filtered := filter_by_article_type fetched article_type
  if filtered.isEmpty then ⟨some noNewsAfterFilterMsg, []⟩
  else ⟨none, buildSummaries summarize 1 filtered⟩

/-- The NEWS_AGENCY keyword set as the spec states it (matched, per the spec,
against title and description alike). -/
def agencyKeywords : List String := ["agencia", "reuters", "associated press", "ap ", "afp"]

/-- The agency keywords the code actually matches against the description
(src/main.py lines 178-179): `"associated press"` is absent there. -/
def agencyDescKeywords : List String := ["agencia", "reuters", "ap ", "afp"]

/-- Written from the spec claim, for comparison with the code: keep an
article for NEWS_AGENCY iff some keyword of `agencyKeywords` occurs in the
lowered title or in the lowered description. -/
def keepAgencyClaim (art : Article) : Bool :=
  agencyKeywords.any fun k =>
    inStr k (lowerStr art.title) || inStr k (descLower art.description)

/-- The NEWS_AGENCY decision the code implements: all five keywords against
the title, but only `agencyDescKeywords` against the description. -/
def keepAgencyAmended (art : Article) : Bool :=
  (agencyKeywords.any fun k => inStr k (lowerStr art.title))
    || (agencyDescKeywords.any fun k => inStr k (descLower art.description))

/-- Replaces an article's description by the string the code treats it as
(its truthiness-defaulted value): `None` and `""` both become `some ""`. -/
def normDesc (art : Article) : Article :=
  { art with description := some (pyOr art.description "") }

/-- A character list spelling `n` whitespace-delimited one-letter words
(`"w w … w "`), used to instantiate word-count hypotheses concretely. -/
def repChars : Nat → List Char
  | 0 => []
  | n + 1 => 'w' :: ' ' :: repChars n

/-! Helper lemmas shared by several claim theorems. -/

theorem pySplitAux_repChars (n : Nat) :
    pySplitAux (repChars n) [] = List.replicate n ['w'] := by
  induction n with
  | zero => rfl
  | succ n ih =>
    have hw : ('w').isWhitespace = false := by decide
    have hs : (' ').isWhitespace = true := by decide
    show pySplitAux ('w' :: ' ' :: repChars n) [] = _
    simp [pySplitAux, hw, hs, ih, List.replicate_succ]

theorem wordCount_repChars (n : Nat) :
    wordCount (String.mk (repChars n)) = n := by
  show (pySplitAux (repChars n) []).length = n
  rw [pySplitAux_repChars]
  exact List.length_replicate n _

/-- CLAIM C2: for every `min_len`, `max_len` and input text, the
`max_length` that `dynamic_summarize` derives and hands to the inference
call is at least `min_len`. -/
theorem estimated_max_ge_min_len (min_len max_len : Nat) (text : String) :
    min_len ≤ (dynamic_summarize text min_len max_len).max_length := by
  simp only [dynamic_summarize]
  split <;> omega

/-- CLAIM C1: with the defaults `min_len = 100`, `max_len = 450`,
`dynamic_summarize` passes the inference call a `max_length` equal to
`min(450, ⌊word_count × 0.8⌋)` when that value is at least 100, and to
105 otherwise; in particular a 50-word text yields 105 and a 1000-word
text yields 450. -/
theorem dynamic_summarize_max_length_spec (text : String) :
    (100 ≤ min 450 (wordCount text * 4 / 5) →
      (dynamic_summarize text 100 450).max_length = min 450 (wordCount text * 4 / 5))
    ∧ (min 450 (wordCount text * 4 / 5) < 100 →
      (dynamic_summarize text 100 450).max_length = 105)
    ∧ (wordCount text = 50 → (dynamic_summarize text 100 450).max_length = 105)
    ∧ (wordCount text = 1000 → (dynamic_summarize text 100 450).max_length = 450) := by
  have h : (dynamic_summarize text 100 450).max_length =
      if min 450 (wordCount text * 4 / 5) < 100 then 105
      else min 450 (wordCount text * 4 / 5) := rfl
  refine ⟨?_, ?_, ?_, ?_⟩ <;> intro hh
  · rw [h, if_neg (by omega)]
  · rw [h, if_pos hh]
  · rw [h, hh]; decide
  · rw [h, hh]; decide

/-- Witness for C1: concrete 50-word and 1000-word texts yield 105 and 450. -/
theorem dynamic_summarize_max_length_spec_witness :
    (dynamic_summarize (String.mk (repChars 50)) 100 450).max_length = 105
    ∧ (dynamic_summarize (String.mk (repChars 1000)) 100 450).max_length = 450 :=
  ⟨(dynamic_summarize_max_length_spec (String.mk (repChars 50))).2.2.1
      (wordCount_repChars 50),
   (dynamic_summarize_max_length_spec (String.mk (repChars 1000))).2.2.2
      (wordCount_repChars 1000)⟩

/-- COUNTEREXAMPLE to C3: the article with title `"x"` and description
`"associated press"` satisfies the claimed keep-condition (an agency keyword
occurs in the description), yet the code drops it — `"associated press"` is
matched against the title only, so the claimed iff fails here. -/
theorem agency_description_associated_press_dropped :
    keepAgencyClaim ⟨"x", some "associated press", "u"⟩ = true
    ∧ keepByType "agency" ⟨"x", some "associated press", "u"⟩ = false
    ∧ filter_by_article_type [⟨"x", some "associated press", "u"⟩] "agency" = [] := by
  decide

/-- CLAIM C3 as amended: the classifier with category NEWS_AGENCY keeps an
article iff one of the five keywords occurs (case-insensitively) in the
title, or one of the four keywords other than `"associated press"` occurs in
the description. -/
theorem agency_keyword_match_amended (art : Article) :
    keepByType "agency" art = keepAgencyAmended art := by
  have key : ∀ (b1 b2 b3 b4 b5 b6 b7 b8 b9 : Bool),
      (b1 || b2 || b3 || b4 || b5 || b6 || b7 || b8 || b9)
        = ((b1 || (b2 || (b3 || (b4 || (b5 || false)))))
            || (b6 || (b7 || (b8 || (b9 || false))))) := by decide
  show (inStr "agencia" (lowerStr art.title) || _ || _ || _ || _ || _ || _ || _ || _) = _
  rw [key]
  rfl

/-- CLAIM C6: with no truthy credential (`None` or `""`), both fetch modes
return an empty article sequence, report the missing credential, and attempt
no network call (`request = none`); the function returns normally rather
than aborting. -/
theorem missing_credential_empty_fetch (key : Option String)
    (h : pyTruthyStr key = false) (topic language : String) (page_size : Nat)
    (domain_string : Option String) (resp : ProviderResponse) :
    fetch_from_newsapi key topic language page_size resp
        = ⟨none, [], some .missingCredential⟩
    ∧ fetch_from_lista key topic language page_size domain_string resp
        = ⟨none, [], some .missingCredential⟩ := by
  constructor
  · simp [fetch_from_newsapi, h]
  · simp [fetch_from_lista, h]

/-- Witness for C6: a concrete fetch with the credential unset. -/
theorem missing_credential_empty_fetch_witness :
    fetch_from_newsapi none "clima" "es" 5 ⟨200, []⟩
        = ⟨none, [], some .missingCredential⟩
    ∧ fetch_from_lista none "clima" "es" 5 none ⟨200, []⟩
        = ⟨none, [], some .missingCredential⟩ :=
  missing_credential_empty_fetch none (by decide) "clima" "es" 5 none ⟨200, []⟩

/-- CLAIM C7: in allowlisted mode, a falsy (`None` or empty) domain string is
replaced by the built-in default domain list, which is sent as the `domains`
constraint of the query — the request is never unrestricted. -/
theorem empty_allowlist_uses_default_domains (key : String) (hkey : key ≠ "")
    (topic language : String) (page_size : Nat) (domain_string : Option String)
    (hd : pyTruthyStr domain_string = false) (resp : ProviderResponse) :
    (fetch_from_lista (some key) topic language page_size domain_string resp).request
      = some ⟨topic, language, page_size, "publishedAt", some defaultDomainString⟩ := by
  have hk : pyTruthyStr (some key) = true := by simp [pyTruthyStr, hkey]
  simp only [fetch_from_lista, hk, hd, if_true, if_false, Bool.false_eq_true]
  split <;> rfl

/-- Witness for C7: a concrete allowlisted fetch with an absent allowlist. -/
theorem empty_allowlist_uses_default_domains_witness :
    (fetch_from_lista (some "k") "clima" "es" 5 none ⟨200, []⟩).request
      = some ⟨"clima", "es", 5, "publishedAt", some defaultDomainString⟩ :=
  empty_allowlist_uses_default_domains "k" (by decide) "clima" "es" 5 none
    (by decide) ⟨200, []⟩

/-- CLAIM C9: for a source string other than `"newsapi"` and `"lista"`,
`fetch_news` returns an empty sequence with the unknown-source report and
performs no provider call, rather than raising an error. -/
theorem unknown_source_returns_empty (key : Option String) (topic language : String)
    (page_size : Nat) (source : String) (domain_string : Option String)
    (resp : ProviderResponse) (h1 : source ≠ "newsapi") (h2 : source ≠ "lista") :
    fetch_news key topic language page_size source domain_string resp
      = ⟨none, [], some .unknownSource⟩ := by
  simp [fetch_news, h1, h2]

/-- Witness for C9: a concrete unknown source name. -/
theorem unknown_source_returns_empty_witness :
    fetch_news (some "k") "clima" "es" 5 "rss" none ⟨200, []⟩
      = ⟨none, [], some .unknownSource⟩ :=
  unknown_source_returns_empty (some "k") "clima" "es" 5 "rss" none ⟨200, []⟩
    (by decide) (by decide)

/-- CLAIM C10: for an article-type string outside the six recognized names,
`filter_by_article_type` drops every article and returns the empty list. -/
theorem unknown_article_type_filters_all (articles : List Article) (t : String)
    (h1 : t ≠ "all") (h2 : t ≠ "any") (h3 : t ≠ "divulgacion") (h4 : t ≠ "paper")
    (h5 : t ≠ "opinion") (h6 : t ≠ "agency") :
    filter_by_article_type articles t = [] := by
  have hk : ∀ art, keepByType t art = false := by
    intro art
    simp [keepByType, h3, h4, h5, h6]
  simp [filter_by_article_type, h1, h2, List.filter_eq_nil_iff]
  intro a _
  exact hk a

/-- Witness for C10: a concrete unrecognized article type drops a concrete
nonempty article list to the empty list. -/
theorem unknown_article_type_filters_all_witness :
    filter_by_article_type [⟨"Reuters informa", some "agencia", "u"⟩] "rss" = [] :=
  unknown_article_type_filters_all [⟨"Reuters informa", some "agencia", "u"⟩] "rss"
    (by decide) (by decide) (by decide) (by decide) (by decide) (by decide)

/-- COUNTEREXAMPLE to C5: a run over an empty fetched sequence and a run over
a non-empty fetched sequence that filtering empties produce the very same
outcome — the single "no news after the filter" report with no blocks — so no
distinct "no articles" report for the empty-fetch case exists in the code. -/
theorem empty_fetch_report_not_distinct :
    run_agent (fun _ => "") [] "agency" = ⟨some noNewsAfterFilterMsg, []⟩
    ∧ run_agent (fun _ => "") [⟨"Weather Today", some "", "u"⟩] "agency"
        = ⟨some noNewsAfterFilterMsg, []⟩ := by
  decide

/-- CLAIM C5 as amended: when the fetched sequence is empty — and more
generally whenever filtering leaves nothing — the run terminates early with
an empty block sequence and the one "no news after the filter" report; the
code draws no distinction between an empty fetch and a fetch emptied by the
filter. -/
theorem empty_fetch_reports_filter_message (summarize : SummarizerCall → String)
    (article_type : String) :
    run_agent summarize [] article_type = ⟨some noNewsAfterFilterMsg, []⟩
    ∧ ∀ (fetched : List Article),
        filter_by_article_type fetched article_type = [] →
        run_agent summarize fetched article_type = ⟨some noNewsAfterFilterMsg, []⟩ := by
  have hnil : filter_by_article_type [] article_type = [] := by
    unfold filter_by_article_type
    split <;> rfl
  constructor
  · simp [run_agent, hnil]
  · intro fetched hf
    simp [run_agent, hf]

/-- Witness for C5's amended claim: a concrete non-empty fetch whose
survivors are empty yields the single filter-empty report. -/
theorem empty_fetch_reports_filter_message_witness :
    run_agent (fun _ => "S") [⟨"Weather Today", some "sol", "u"⟩] "paper"
      = ⟨some noNewsAfterFilterMsg, []⟩ :=
  (empty_fetch_reports_filter_message (fun _ => "S") "paper").2
    [⟨"Weather Today", some "sol", "u"⟩] (by decide)

/-- COUNTEREXAMPLE to C4: a provider article with no title field is
normalized to an empty title, survives the identity filter (`"any"`), and is
summarized — producing an output block — so articles reaching the summarizer
need not have a non-empty title. -/
theorem empty_title_reaches_summarizer :
    (normalizeArticle ⟨none, some "La agencia informa", some "u"⟩).title = ""
    ∧ filter_by_article_type
        [normalizeArticle ⟨none, some "La agencia informa", some "u"⟩] "any"
        = [normalizeArticle ⟨none, some "La agencia informa", some "u"⟩]
    ∧ (run_agent (fun _ => "S")
        [normalizeArticle ⟨none, some "La agencia informa", some "u"⟩] "any").blocks
        ≠ [] := by
  decide

theorem descLower_pyOr (d : Option String) :
    descLower (some (pyOr d "")) = descLower d := by
  cases d with
  | none => rfl
  | some s =>
    by_cases h : s = ""
    · subst h; rfl
    · simp [pyOr, pyTruthyStr, descLower, h]

theorem pyOr_normDesc (d : Option String) :
    pyOr (some (pyOr d "")) "" = pyOr d "" := by
  cases d with
  | none => rfl
  | some s =>
    by_cases h : s = ""
    · subst h; rfl
    · simp [pyOr, pyTruthyStr, h]

theorem keepByType_normDesc (t : String) (art : Article) :
    keepByType t (normDesc art) = keepByType t art := by
  simp only [keepByType, normDesc, descLower_pyOr]

theorem summaryInput_normDesc (art : Article) :
    summaryInput (normDesc art) = summaryInput art := by
  simp only [summaryInput, normDesc, pyOr_normDesc]

theorem formatBlock_normDesc (i : Nat) (art : Article) (s : String) :
    formatBlock i (normDesc art) s = formatBlock i art s := by
  simp only [formatBlock, normDesc]

theorem filter_by_article_type_map_normDesc (l : List Article) (t : String) :
    filter_by_article_type (l.map normDesc) t
      = (filter_by_article_type l t).map normDesc := by
  unfold filter_by_article_type
  split
  · rfl
  · rw [List.filter_map]
    congr 1
    exact List.filter_congr fun a _ => keepByType_normDesc t a

theorem buildSummaries_map_normDesc (s : SummarizerCall → String) :
    ∀ (k : Nat) (l : List Article),
      buildSummaries s k (l.map normDesc) = buildSummaries s k l
  | _, [] => rfl
  | k, a :: l => by
    simp only [List.map_cons, buildSummaries, summaryInput_normDesc,
      formatBlock_normDesc, buildSummaries_map_normDesc s (k + 1) l]

/-- CLAIM C4 as amended: the pipeline never null-dereferences a description —
replacing every description by the string the code treats it as (`None` and
`""` both read as `""`) changes nothing observable about a run — but no
non-empty-title invariant holds: an article whose title is empty passes
filtering and is summarized like any other. -/
theorem description_defaulting_amended (summarize : SummarizerCall → String)
    (fetched : List Article) (article_type : String) :
    run_agent summarize (fetched.map normDesc) article_type
      = run_agent summarize fetched article_type := by
  unfold run_agent
  rw [filter_by_article_type_map_normDesc]
  cases hE : filter_by_article_type fetched article_type with
  | nil => rfl
  | cons a l =>
    simp only [List.map_cons, List.isEmpty_cons, Bool.false_eq_true, if_false,
      buildSummaries, summaryInput_normDesc, formatBlock_normDesc,
      buildSummaries_map_normDesc]

theorem buildSummaries_eq_mapIdx (s : SummarizerCall → String) :
    ∀ (k : Nat) (l : List Article),
      buildSummaries s k l = l.mapIdx fun j art =>
        formatBlock (k + j) art (s (dynamic_summarize (summaryInput art) 100 450))
  | _, [] => rfl
  | k, a :: l => by
    rw [buildSummaries, buildSummaries_eq_mapIdx s (k + 1) l, List.mapIdx_cons]
    congr 1
    congr 1
    funext j art
    show formatBlock (k + 1 + j) art _ = formatBlock (k + (j + 1)) art _
    rw [Nat.add_assoc, Nat.add_comm 1 j]

theorem run_agent_blocks (s : SummarizerCall → String) (fetched : List Article)
    (t : String) :
    (run_agent s fetched t).blocks
      = buildSummaries s 1 (filter_by_article_type fetched t) := by
  unfold run_agent
  cases hE : filter_by_article_type fetched t with
  | nil => rfl
  | cons a l => rfl

/-- CLAIM C8: filtering only drops articles, keeping the survivors in their
fetched relative order (a sublist), and the run's output blocks are exactly
the survivors formatted one by one in that order with 1-based numbering. -/
theorem pipeline_preserves_order (summarize : SummarizerCall → String)
    (fetched : List Article) (article_type : String) :
    List.Sublist (filter_by_article_type fetched article_type) fetched
    ∧ (run_agent summarize fetched article_type).blocks
        = (filter_by_article_type fetched article_type).mapIdx fun j art =>
            formatBlock (j + 1) art
              (summarize (dynamic_summarize (summaryInput art) 100 450)) := by
  constructor
  · unfold filter_by_article_type
    split
    · exact List.Sublist.refl _
    · exact List.filter_sublist _
  · rw [run_agent_blocks, buildSummaries_eq_mapIdx]
    congr 1
    funext j art
    rw [Nat.add_comm 1 j]

end Robotica
